import Mathlib

/-!
Verification of the Meditrail OCR API client
(`src/ocr/python/ocr_client.py`) against its specification.

The Python client is embedded shallowly:

* JSON values are the inductive `Json`; an HTTP response body is an
  `Option Json` (`none` models a body that is not valid JSON, where
  `response.json()` raises `json.JSONDecodeError`).
* The HTTP transport outcome is the inductive `Outcome`: either a
  response with a status code and body, a timeout
  (`requests.exceptions.Timeout`), or a connection failure
  (`requests.exceptions.ConnectionError`).
* The filesystem is a function `String → Option Nat` giving the size of
  each existing file.
* Every exception the Python code can raise becomes a constructor of
  `OcrFailure`; `process_document` returns an
  `Except OcrFailure (Option Json)` (the `.ok none` case models the
  Python function falling off the end and returning `None`), together
  with the list of HTTP requests issued and flags recording whether the
  uploaded file handle was opened and closed.
-/

/-- JSON values, as produced by `response.json()`.  Numbers are modelled
as integers (no claim depends on fractional numeric literals); objects
are association lists, assumed duplicate-free as Python dicts are. -/
inductive Json where
  | null : Json
  | bool (b : Bool) : Json
  | num (n : Int) : Json
  | str (s : String) : Json
  | arr (elems : List Json) : Json
  | obj (fields : List (String × Json)) : Json

/-- Python `repr` of a JSON value (apostrophe written as an escape).
String escaping inside `repr` of a string is not modelled; no claim
depends on it. -/
def pyRepr : Json → String
  | .null => "None"
  | .bool true => "True"
  | .bool false => "False"
  | .num n => toString n
  | .str s => "\x27" ++ s ++ "\x27"
  | .arr elems =>
      "[" ++
        String.intercalate ", " (elems.attach.map (fun e => pyRepr e.val)) ++
      "]"
  | .obj fields =>
      "\x7b" ++
        String.intercalate ", "
          (fields.attach.map
            (fun kv =>
              "\x27" ++ kv.val.fst ++ "\x27: " ++ pyRepr kv.val.snd)) ++
      "\x7d"
decreasing_by
  · have h := List.sizeOf_lt_of_mem e.property
    simp only [Json.arr.sizeOf_spec]
    omega
  · rcases kv with ⟨⟨a, b⟩, hmem⟩
    have h := List.sizeOf_lt_of_mem hmem
    simp only [Prod.mk.sizeOf_spec] at h
    simp only [Json.obj.sizeOf_spec]
    omega

/-- Python `str` of a JSON value, as used by an f-string interpolation:
a string interpolates verbatim, everything else as its `repr`. -/
def pyStr : Json → String
  | .str s => s
  | j => pyRepr j

/-- Field lookup in a JSON object (association list). -/
def Json.lookup (j : Json) (key : String) : Option Json :=
  match j with
  | .obj fields => (fields.find? (fun kv => kv.fst == key)).map Prod.snd
  | _ => none

/-- Whether the value is a JSON object (a Python dict): `isinstance(x, dict)`. -/
def Json.isDict : Json → Bool
  | .obj _ => true
  | _ => false

/-- Python `x.get(key, default)`.  Defined only on dicts: on any other
value `.get` does not exist and Python raises `AttributeError`, modelled
by `none` here (the caller turns it into the `attributeError` failure). -/
def pyGet (j : Json) (key : String) (deflt : Json) : Option Json :=
  match j with
  | .obj _ => some ((j.lookup key).getD deflt)
  | _ => none

/-- The exceptions `process_document` can raise.

* `fileNotFoundError` — `FileNotFoundError` from the existence check;
* `valueError` — `ValueError` from the local 50 MB size check;
* `requestException` — `requests.RequestException` raised explicitly
  with a message;
* `httpError` — `requests.HTTPError` from `response.raise_for_status()`,
  carrying the status code;
* `attributeError` — `AttributeError` from calling `.get` on a decoded
  JSON body that is not a dict. -/
inductive OcrFailure where
  | fileNotFoundError (msg : String) : OcrFailure
  | valueError (msg : String) : OcrFailure
  | requestException (msg : String) : OcrFailure
  | httpError (status : Nat) : OcrFailure
  | attributeError : OcrFailure

/-- Outcome of the HTTP POST: the response the client code sees, a
timeout, or a connection failure. -/
inductive Outcome where
  | response (status : Nat) (body : Option Json) : Outcome
  | timeout : Outcome
  | connectionError : Outcome

/-- The HTTP request assembled by `process_document`: method, URL,
headers, the multipart file part (field name, filename), the plain form
fields, and the timeout in seconds. -/
structure Request where
  method : String
  url : String
  headers : List (String × String)
  filePart : String × String
  dataFields : List (String × String)
  timeout : Nat

/-- Python string method rstrip applied with the slash character, as in
the constructor of the client: remove every trailing slash. -/
def rstripSlashes (s : String) : String :=
  String.mk ((s.data.reverse.dropWhile (fun c => c == '/')).reverse)

/-- Python os.path.basename for POSIX paths: the part after the last
slash (the whole path when there is no slash). -/
def basename (p : String) : String :=
  (p.splitOn "/").getLastD p

/-- The 50 MB limit of the local size check: `50 * 1024 * 1024` bytes. -/
def sizeLimit : Nat := 50 * 1024 * 1024

/-- Value of the Python expression `file_size / (1024*1024)` rendered
with the format spec .2f, returned in hundredths of a megabyte.  For any
realistic size the quotient is an exact binary double (division by a
power of two), so the rendering is round-half-to-even on the exact
rational value, which this computes. -/
def mbCents (file_size : Nat) : Nat :=
  let q := file_size * 100 / 1048576
  let r := file_size * 100 % 1048576
  if 1048576 < 2 * r then q + 1
  else if 2 * r < 1048576 then q
  else if q % 2 = 0 then q else q + 1

/-- Decimal rendering of a count of hundredths with two digits after the
point, as the format spec .2f produces. -/
def centsToString (cents : Nat) : String :=
  toString (cents / 100) ++ "." ++
    (if cents % 100 < 10 then "0" else "") ++ toString (cents % 100)

/-- Message of the ValueError raised by the local size check. -/
def tooLargeMsg (file_size : Nat) : String :=
  "File too large: " ++ centsToString (mbCents file_size) ++ "MB (max: 50MB)"

/-- Default base URL of the client constructor. -/
def defaultBaseUrl : String := "https://meditrail.unitedwecare.com/api/v1"

/-- The client: stores the API key, the base URL with trailing slashes
stripped, and the auth header mapping. -/
structure MeditrailOCRClient where
  api_key : String
  base_url : String
  headers : List (String × String)

/-- The constructor of MeditrailOCRClient. -/
def MeditrailOCRClient.init (api_key : String) (base_url : String) :
    MeditrailOCRClient :=
  { api_key := api_key
    base_url := rstripSlashes base_url
    headers := [("X-API-Key", api_key)] }

/-- Python truthiness of an optional string, as tested by the statements
building the form data dict: present and non-empty. -/
def truthy : Option String → Bool
  | some s => s ≠ ""
  | none => false

/-- Mapping of the HTTP response inside the try block of
process_document: the if/elif chain on the status code, with
JSONDecodeError from a non-JSON body caught and re-raised as
Invalid JSON response, and raise_for_status on the fall-through branch
(which raises HTTPError exactly for statuses in [400, 600) and
otherwise does nothing, letting the function return None). -/
def handleResponse (status : Nat) (body : Option Json) :
    Except OcrFailure (Option Json) :=
  if status = 200 then
    match body with
    | some j => .ok (some j)
    | none => .error (.requestException "Invalid JSON response")
  else if status = 400 then
    match body with
    | none => .error (.requestException "Invalid JSON response")
    | some j =>
      match pyGet j "detail" (.str "Bad Request") with
      | none => .error .attributeError
      | some d => .error (.requestException ("Bad Request: " ++ pyStr d))
  else if status = 413 then
    .error (.requestException "File too large (max 50MB)")
  else if status = 429 then
    match body with
    | none => .error (.requestException "Invalid JSON response")
    | some j =>
      match pyGet j "detail" (.obj []) with
      | none => .error .attributeError
      | some d =>
        if d.isDict then
          .error (.requestException
            ("Usage limit exceeded: " ++
              pyStr ((d.lookup "message").getD (.str "Usage limit exceeded"))))
        else
          .error (.requestException "Usage limit exceeded")
  else if status = 500 then
    match body with
    | none => .error (.requestException "Invalid JSON response")
    | some j =>
      match pyGet j "detail" (.str "Internal Server Error") with
      | none => .error .attributeError
      | some d =>
        .error (.requestException ("Internal Server Error: " ++ pyStr d))
  else if 400 ≤ status ∧ status < 600 then
    .error (.httpError status)
  else
    .ok none

/-- A complete run of process_document: its return value or raised
exception, whether the file handle was opened, whether it was closed by
the time the call returned (line 88 and the finally block), and the
list of HTTP requests issued. -/
structure RunResult where
  result : Except OcrFailure (Option Json)
  opened : Bool
  closed : Bool
  requests : List Request

/-- Shallow embedding of MeditrailOCRClient.process_document.  The
filesystem fs maps a path to the size of the file there when one
exists.  The outcome is what the single requests.post call produces. -/
def process_document (c : MeditrailOCRClient) (fs : String → Option Nat)
    (file_path : String) (text system_prompt : Option String)
    (outcome : Outcome) : RunResult :=
  match fs file_path with
  | none =>
      { result := .error (.fileNotFoundError ("File not found: " ++ file_path))
        opened := false
        closed := false
        requests := [] }
  | some file_size =>
    if sizeLimit < file_size then
      { result := .error (.valueError (tooLargeMsg file_size))
        opened := false
        closed := false
        requests := [] }
    else
      let req : Request :=
        { method := "POST"
          url := c.base_url ++ "/ocr/process"
          headers := c.headers
          filePart := ("file", basename file_path)
          dataFields :=
            (if truthy text then [("text", text.getD "")] else []) ++
            (if truthy system_prompt
              then [("system_prompt", system_prompt.getD "")] else [])
          timeout := 60 }
      let res : Except OcrFailure (Option Json) :=
        match outcome with
        | .timeout => .error (.requestException "Request timed out")
        | .connectionError => .error (.requestException "Connection error")
        | .response status body => handleResponse status body
      { result := res, opened := true, closed := true, requests := [req] }

/-- A sample client used to instantiate the theorems below. -/
def sampleClient : MeditrailOCRClient :=
  MeditrailOCRClient.init "key123" "https://api.example.com/"

/-- A sample filesystem with one small file (1024 bytes) and one file of
51 MiB, which is over the 50 MiB limit. -/
def sampleFs : String → Option Nat := fun p =>
  if p = "docs/scan.pdf" then some 1024
  else if p = "docs/huge.pdf" then some 53477376
  else none

/-- A sample JSON response body. -/
def sampleBody : Json := Json.obj [("id", Json.str "doc-1")]

/-- The head of a dropWhile result never satisfies the predicate. -/
theorem head_dropWhile_false {α : Type} (p : α → Bool) (l : List α) (a : α)
    (as : List α) (h : l.dropWhile p = a :: as) : p a = false := by
  induction l with
  | nil => simp [List.dropWhile] at h
  | cons x xs ih =>
    rw [List.dropWhile_cons] at h
    cases hp : p x with
    | true => rw [hp] at h; simp at h; exact ih h
    | false =>
      rw [hp] at h
      simp at h
      rw [← h.1]
      exact hp

/-- Every string is its slash-stripped form followed by some run of
trailing slashes. -/
theorem rstripSlashes_eq_append (s : String) :
    ∃ k, s = rstripSlashes s ++ String.mk (List.replicate k '/') := by
  obtain ⟨data⟩ := s
  refine ⟨(data.reverse.takeWhile (fun c => c == '/')).length, ?_⟩
  have ht : data.reverse.takeWhile (fun c => c == '/')
      = List.replicate (data.reverse.takeWhile (fun c => c == '/')).length '/' :=
    List.eq_replicate_of_mem (fun b hb => by simpa using List.mem_takeWhile_imp hb)
  show String.mk data
      = String.mk ((data.reverse.dropWhile (fun c => c == '/')).reverse
          ++ List.replicate (data.reverse.takeWhile (fun c => c == '/')).length '/')
  refine congrArg String.mk ?_
  conv_lhs => rw [← List.reverse_reverse data,
    ← List.takeWhile_append_dropWhile (fun c => c == '/') data.reverse]
  rw [List.reverse_append]
  congr 1
  conv_lhs => rw [ht]
  exact List.reverse_replicate _ _

/-- The slash-stripped form of a string does not end with a slash. -/
theorem rstripSlashes_no_trailing (s : String) (c : Char)
    (h : (rstripSlashes s).data.getLast? = some c) : c ≠ '/' := by
  have h2 : (s.data.reverse.dropWhile (fun x => x == '/')).head? = some c := by
    rw [← List.getLast?_reverse]
    exact h
  cases hd : s.data.reverse.dropWhile (fun x => x == '/') with
  | nil => rw [hd] at h2; simp at h2
  | cons a as =>
    rw [hd] at h2
    simp at h2
    have hp := head_dropWhile_false _ _ _ _ hd
    rw [h2] at hp
    simpa using hp

/-- Unfolding of the 429 branch of handleResponse. -/
theorem handleResponse_429_some (j : Json) :
    handleResponse 429 (some j)
      = match pyGet j "detail" (.obj []) with
        | none => .error .attributeError
        | some d =>
          if d.isDict then
            .error (.requestException
              ("Usage limit exceeded: " ++
                pyStr ((d.lookup "message").getD (.str "Usage limit exceeded"))))
          else
            .error (.requestException "Usage limit exceeded") := rfl

/-- Unfolding of the 400 branch of handleResponse. -/
theorem handleResponse_400_some (j : Json) :
    handleResponse 400 (some j)
      = match pyGet j "detail" (.str "Bad Request") with
        | none => .error .attributeError
        | some d => .error (.requestException ("Bad Request: " ++ pyStr d)) := rfl

/-- Unfolding of the 500 branch of handleResponse. -/
theorem handleResponse_500_some (j : Json) :
    handleResponse 500 (some j)
      = match pyGet j "detail" (.str "Internal Server Error") with
        | none => .error .attributeError
        | some d =>
            .error (.requestException ("Internal Server Error: " ++ pyStr d)) := rfl

/-- Claim C1, counterexample: a 304 response is a non-2xx status not
among 400, 413, 429, 500, yet process_document does not fail with an
HTTP status error — raise_for_status does nothing below 400, and the
call returns None. -/
theorem c1_counterexample :
    (process_document sampleClient sampleFs "docs/scan.pdf" none none
        (.response 304 none)).result = .ok none := rfl

/-- Claim C1, amended: for every response whose status lies in the
range 400 to 599 and is not 400, 413, 429 or 500, process_document
fails with an HTTPError carrying that status; for any other non-200
status (1xx, non-200 2xx, 3xx, or 600 and above, where
raise_for_status does not raise) the call instead returns None. -/
theorem c1_amended (c : MeditrailOCRClient) (fs : String → Option Nat)
    (file_path : String) (text system_prompt : Option String) (sz status : Nat)
    (body : Option Json) (hfs : fs file_path = some sz) (hsz : sz ≤ sizeLimit) :
    (400 ≤ status → status < 600 → status ≠ 400 → status ≠ 413 → status ≠ 429 →
      status ≠ 500 →
      (process_document c fs file_path text system_prompt
          (.response status body)).result = .error (.httpError status)) ∧
    (status ≠ 200 → ¬(400 ≤ status ∧ status < 600) →
      (process_document c fs file_path text system_prompt
          (.response status body)).result = .ok none) := by
  have hnl := Nat.not_lt.mpr hsz
  constructor
  · intro h4 h6 hn400 hn413 hn429 hn500
    simp only [process_document, hfs]
    rw [if_neg hnl]
    show handleResponse status body = _
    unfold handleResponse
    rw [if_neg (by omega : ¬ status = 200), if_neg hn400, if_neg hn413,
      if_neg hn429, if_neg hn500, if_pos ⟨h4, h6⟩]
  · intro h200 hrange
    simp only [process_document, hfs]
    rw [if_neg hnl]
    show handleResponse status body = _
    unfold handleResponse
    rw [if_neg h200, if_neg (by omega : ¬ status = 400),
      if_neg (by omega : ¬ status = 413), if_neg (by omega : ¬ status = 429),
      if_neg (by omega : ¬ status = 500), if_neg hrange]

/-- Witness for C1 at status 404: the call fails with HTTPError 404. -/
theorem c1_amended_witness :
    (process_document sampleClient sampleFs "docs/scan.pdf" none none
        (.response 404 none)).result = .error (.httpError 404) :=
  (c1_amended sampleClient sampleFs "docs/scan.pdf" none none 1024 404 none rfl
      (by decide)).1 (by decide) (by decide) (by decide) (by decide) (by decide)
    (by decide)

/-- Claim C2: for every file strictly larger than 50 MiB (52428800
bytes) process_document fails with the local file-too-large error
(a ValueError) and issues no network request — the file is not even
opened; for every existing file of size at most 50 MiB the local size
check passes: the file is opened and exactly one request is issued. -/
theorem c2_local_size_limit (c : MeditrailOCRClient) (fs : String → Option Nat)
    (file_path : String) (text system_prompt : Option String) (outcome : Outcome)
    (sz : Nat) (hfs : fs file_path = some sz) :
    (52428800 < sz →
      (process_document c fs file_path text system_prompt outcome).result
          = .error (.valueError (tooLargeMsg sz)) ∧
      (process_document c fs file_path text system_prompt outcome).requests = [] ∧
      (process_document c fs file_path text system_prompt outcome).opened = false) ∧
    (sz ≤ 52428800 →
      (process_document c fs file_path text system_prompt outcome).opened = true ∧
      (process_document c fs file_path text system_prompt outcome).requests.length
          = 1) := by
  constructor
  · intro h
    have hlt : sizeLimit < sz := h
    refine ⟨?_, ?_, ?_⟩ <;> simp [process_document, hfs, hlt]
  · intro h
    have hle : ¬ sizeLimit < sz := Nat.not_lt.mpr h
    refine ⟨?_, ?_⟩ <;> simp [process_document, hfs, hle]

/-- Witness for C2 at a 51 MiB file: the local error is raised and no
request is issued. -/
theorem c2_local_size_limit_witness :
    (process_document sampleClient sampleFs "docs/huge.pdf" none none
        .timeout).result = .error (.valueError (tooLargeMsg 53477376)) ∧
    (process_document sampleClient sampleFs "docs/huge.pdf" none none
        .timeout).requests = [] ∧
    (process_document sampleClient sampleFs "docs/huge.pdf" none none
        .timeout).opened = false :=
  (c2_local_size_limit sampleClient sampleFs "docs/huge.pdf" none none .timeout
      53477376 rfl).1 (by decide)

/-- Claim C3, counterexample: at a 51 MiB file the local size check
raises a ValueError, while a 413 response raises a RequestException
with a different message; the two failures are not the same error
kind. -/
theorem c3_counterexample :
    (process_document sampleClient sampleFs "docs/huge.pdf" none none
        (.response 200 (some sampleBody))).result
      = .error (.valueError "File too large: 51.00MB (max: 50MB)") ∧
    (process_document sampleClient sampleFs "docs/scan.pdf" none none
        (.response 413 (some sampleBody))).result
      = .error (.requestException "File too large (max 50MB)") ∧
    (Except.error (OcrFailure.valueError "File too large: 51.00MB (max: 50MB)")
        : Except OcrFailure (Option Json))
      ≠ .error (.requestException "File too large (max 50MB)") := by
  refine ⟨rfl, rfl, fun h => ?_⟩
  exact OcrFailure.noConfusion (Except.error.inj h)

/-- Claim C3, amended: the local over-50-MiB check raises a ValueError
whose message begins with the words File too large, and a 413 response
raises a RequestException with the fixed message File too large
(max 50MB); the two failures agree on the file-too-large wording but
are distinct exception kinds, not one collapsed user-facing kind. -/
theorem c3_amended (c : MeditrailOCRClient) (fs : String → Option Nat)
    (pBig pOk : String) (text system_prompt : Option String) (outcome : Outcome)
    (szBig szOk : Nat) (body : Option Json)
    (hBig : fs pBig = some szBig) (hszBig : 52428800 < szBig)
    (hOk : fs pOk = some szOk) (hszOk : szOk ≤ 52428800) :
    (process_document c fs pBig text system_prompt outcome).result
        = .error (.valueError (tooLargeMsg szBig)) ∧
    (∃ rest, tooLargeMsg szBig = "File too large" ++ rest) ∧
    (process_document c fs pOk text system_prompt (.response 413 body)).result
        = .error (.requestException "File too large (max 50MB)") ∧
    (∀ m1 m2, OcrFailure.valueError m1 ≠ OcrFailure.requestException m2) := by
  have hlt : sizeLimit < szBig := hszBig
  have hnl : ¬ sizeLimit < szOk := Nat.not_lt.mpr hszOk
  refine ⟨?_, ?_, ?_, fun m1 m2 h => OcrFailure.noConfusion h⟩
  · simp [process_document, hBig, hlt]
  · refine ⟨": " ++ (centsToString (mbCents szBig) ++ "MB (max: 50MB)"), ?_⟩
    unfold tooLargeMsg
    rw [show ("File too large: " : String) = "File too large" ++ ": " from rfl]
    rw [String.append_assoc, String.append_assoc]
  · simp only [process_document, hOk]
    rw [if_neg hnl]
    rfl

/-- Witness for C3 at the sample filesystem: both failure shapes are
realized. -/
theorem c3_amended_witness :
    (process_document sampleClient sampleFs "docs/huge.pdf" none none
        .timeout).result = .error (.valueError (tooLargeMsg 53477376)) ∧
    (∃ rest, tooLargeMsg 53477376 = "File too large" ++ rest) ∧
    (process_document sampleClient sampleFs "docs/scan.pdf" none none
        (.response 413 none)).result
      = .error (.requestException "File too large (max 50MB)") ∧
    (∀ m1 m2, OcrFailure.valueError m1 ≠ OcrFailure.requestException m2) :=
  c3_amended sampleClient sampleFs "docs/huge.pdf" "docs/scan.pdf" none none
    .timeout 53477376 1024 none rfl (by decide) rfl (by decide)

/-- Claim C4: a 429 response whose JSON body carries a detail object
with a message field fails with a message containing that value; a 429
response whose detail is present but not an object fails with the
generic message Usage limit exceeded. -/
theorem c4_429_usage_limit (c : MeditrailOCRClient) (fs : String → Option Nat)
    (file_path : String) (text system_prompt : Option String) (sz : Nat)
    (fields : List (String × Json)) (hfs : fs file_path = some sz)
    (hsz : sz ≤ sizeLimit) :
    (∀ dfields m,
      (Json.obj fields).lookup "detail" = some (.obj dfields) →
      (Json.obj dfields).lookup "message" = some (.str m) →
      (process_document c fs file_path text system_prompt
          (.response 429 (some (.obj fields)))).result
        = .error (.requestException ("Usage limit exceeded: " ++ m)) ∧
      ∃ pre post, "Usage limit exceeded: " ++ m = pre ++ m ++ post) ∧
    (∀ d, (Json.obj fields).lookup "detail" = some d → d.isDict = false →
      (process_document c fs file_path text system_prompt
          (.response 429 (some (.obj fields)))).result
        = .error (.requestException "Usage limit exceeded")) := by
  have hnl := Nat.not_lt.mpr hsz
  constructor
  · intro dfields m hd hm
    constructor
    · simp only [process_document, hfs]
      rw [if_neg hnl]
      show handleResponse 429 (some (Json.obj fields)) = _
      rw [handleResponse_429_some]
      rw [show pyGet (Json.obj fields) "detail" (.obj [])
            = some (((Json.obj fields).lookup "detail").getD (.obj [])) from rfl]
      rw [hd]
      simp [Json.isDict, hm, pyStr]
    · exact ⟨"Usage limit exceeded: ", "", (String.append_empty _).symm⟩
  · intro d hd hdict
    simp only [process_document, hfs]
    rw [if_neg hnl]
    show handleResponse 429 (some (Json.obj fields)) = _
    rw [handleResponse_429_some]
    rw [show pyGet (Json.obj fields) "detail" (.obj [])
          = some (((Json.obj fields).lookup "detail").getD (.obj [])) from rfl]
    rw [hd]
    simp [hdict]

/-- Witness for C4 with detail carrying the message limit hit. -/
theorem c4_429_usage_limit_witness :
    (process_document sampleClient sampleFs "docs/scan.pdf" none none
        (.response 429 (some (.obj
          [("detail", Json.obj [("message", Json.str "limit hit")])])))).result
      = .error (.requestException ("Usage limit exceeded: " ++ "limit hit")) ∧
    ∃ pre post, "Usage limit exceeded: " ++ "limit hit"
        = pre ++ "limit hit" ++ post :=
  (c4_429_usage_limit sampleClient sampleFs "docs/scan.pdf" none none 1024
      [("detail", Json.obj [("message", Json.str "limit hit")])] rfl (by decide)).1
    [("message", Json.str "limit hit")] "limit hit" rfl rfl

/-- Claim C5, counterexample: constructing the client with the empty
apiKey succeeds, stores an empty X-API-Key header, and the resulting
client is fully usable — a call through it completes normally. -/
theorem c5_counterexample :
    (MeditrailOCRClient.init "" defaultBaseUrl).headers = [("X-API-Key", "")] ∧
    (process_document (MeditrailOCRClient.init "" defaultBaseUrl) sampleFs
        "docs/scan.pdf" none none (.response 200 (some sampleBody))).result
      = .ok (some sampleBody) := ⟨rfl, rfl⟩

/-- Claim C5, amended: construction performs no validation of the
apiKey; every string, the empty string included, is accepted and stored
verbatim, and the X-API-Key header carries it verbatim. -/
theorem c5_amended (api_key base_url : String) :
    (MeditrailOCRClient.init api_key base_url).api_key = api_key ∧
    (MeditrailOCRClient.init api_key base_url).headers
        = [("X-API-Key", api_key)] := ⟨rfl, rfl⟩

/-- Claim C6: on every run of process_document in which the file was
opened — success, every error-status branch, timeout, connection
failure, and invalid-JSON failure — the file handle is closed by the
time the call returns or fails. -/
theorem c6_closed (c : MeditrailOCRClient) (fs : String → Option Nat)
    (file_path : String) (text system_prompt : Option String) (outcome : Outcome)
    (hopen : (process_document c fs file_path text system_prompt outcome).opened
        = true) :
    (process_document c fs file_path text system_prompt outcome).closed = true := by
  have heq : (process_document c fs file_path text system_prompt outcome).closed
      = (process_document c fs file_path text system_prompt outcome).opened := by
    unfold process_document
    cases fs file_path with
    | none => rfl
    | some sz =>
      by_cases hlt : sizeLimit < sz
      · simp only [if_pos hlt]
      · simp only [if_neg hlt]
  rw [heq, hopen]

/-- Witness for C6 on a timeout run: the handle is closed. -/
theorem c6_closed_witness :
    (process_document sampleClient sampleFs "docs/scan.pdf" none none
        .timeout).closed = true :=
  c6_closed sampleClient sampleFs "docs/scan.pdf" none none .timeout rfl

/-- Claim C7: a 200 response whose body is valid JSON makes
process_document return that parsed body unchanged. -/
theorem c7_success (c : MeditrailOCRClient) (fs : String → Option Nat)
    (file_path : String) (text system_prompt : Option String) (sz : Nat) (j : Json)
    (hfs : fs file_path = some sz) (hsz : sz ≤ sizeLimit) :
    (process_document c fs file_path text system_prompt
        (.response 200 (some j))).result = .ok (some j) := by
  simp only [process_document, hfs]
  rw [if_neg (Nat.not_lt.mpr hsz)]
  rfl

/-- Witness for C7 on the sample body. -/
theorem c7_success_witness :
    (process_document sampleClient sampleFs "docs/scan.pdf" none none
        (.response 200 (some sampleBody))).result = .ok (some sampleBody) :=
  c7_success sampleClient sampleFs "docs/scan.pdf" none none 1024 sampleBody rfl
    (by decide)

/-- Claim C8: a path that references no existing file makes
process_document fail with FileNotFoundError and issue no network
request. -/
theorem c8_not_found (c : MeditrailOCRClient) (fs : String → Option Nat)
    (file_path : String) (text system_prompt : Option String) (outcome : Outcome)
    (hfs : fs file_path = none) :
    (process_document c fs file_path text system_prompt outcome).result
        = .error (.fileNotFoundError ("File not found: " ++ file_path)) ∧
    (process_document c fs file_path text system_prompt outcome).requests = [] := by
  constructor <;> simp [process_document, hfs]

/-- Witness for C8 at a missing path. -/
theorem c8_not_found_witness :
    (process_document sampleClient sampleFs "missing.pdf" none none
        .timeout).result
      = .error (.fileNotFoundError ("File not found: " ++ "missing.pdf")) ∧
    (process_document sampleClient sampleFs "missing.pdf" none none
        .timeout).requests = [] :=
  c8_not_found sampleClient sampleFs "missing.pdf" none none .timeout rfl

/-- Claim C9: the single request issued by process_document is a POST
to the base URL with all trailing slashes stripped followed by
/ocr/process, carries the X-API-Key header set to the apiKey, a
multipart file part named file whose filename is the base name of the
path, and a 60-second timeout. -/
theorem c9_request_shape (api_key base_url : String) (fs : String → Option Nat)
    (file_path : String) (text system_prompt : Option String) (outcome : Outcome)
    (sz : Nat) (hfs : fs file_path = some sz) (hsz : sz ≤ sizeLimit) :
    ∃ r, (process_document (MeditrailOCRClient.init api_key base_url) fs file_path
            text system_prompt outcome).requests = [r] ∧
      r.method = "POST" ∧
      r.url = rstripSlashes base_url ++ "/ocr/process" ∧
      r.headers = [("X-API-Key", api_key)] ∧
      r.filePart = ("file", basename file_path) ∧
      r.timeout = 60 ∧
      (∃ k, base_url
          = rstripSlashes base_url ++ String.mk (List.replicate k '/')) ∧
      (∀ ch, (rstripSlashes base_url).data.getLast? = some ch → ch ≠ '/') := by
  have hnl := Nat.not_lt.mpr hsz
  refine ⟨{ method := "POST"
            url := rstripSlashes base_url ++ "/ocr/process"
            headers := [("X-API-Key", api_key)]
            filePart := ("file", basename file_path)
            dataFields :=
              (if truthy text then [("text", text.getD "")] else []) ++
              (if truthy system_prompt
                then [("system_prompt", system_prompt.getD "")] else [])
            timeout := 60 }, ?_, rfl, rfl, rfl, rfl, rfl,
    rstripSlashes_eq_append base_url, rstripSlashes_no_trailing base_url⟩
  simp only [process_document, hfs]
  rw [if_neg hnl]
  rfl

/-- Witness for C9 on a concrete client and path. -/
theorem c9_request_shape_witness :
    ∃ r, (process_document
            (MeditrailOCRClient.init "key123" "https://api.example.com/")
            sampleFs "docs/scan.pdf" none none .timeout).requests = [r] ∧
      r.method = "POST" ∧
      r.url = rstripSlashes "https://api.example.com/" ++ "/ocr/process" ∧
      r.headers = [("X-API-Key", "key123")] ∧
      r.filePart = ("file", basename "docs/scan.pdf") ∧
      r.timeout = 60 ∧
      (∃ k, "https://api.example.com/"
          = rstripSlashes "https://api.example.com/"
              ++ String.mk (List.replicate k '/')) ∧
      (∀ ch, (rstripSlashes "https://api.example.com/").data.getLast? = some ch →
        ch ≠ '/') :=
  c9_request_shape "key123" "https://api.example.com/" sampleFs "docs/scan.pdf"
    none none .timeout 1024 rfl (by decide)

/-- Claim C10: a 400, 429 or 500 response with a body that is not valid
JSON fails with the message Invalid JSON response rather than the
status-specific error; a 413 response fails with File too large
(max 50MB) regardless of its body; and the defaults Bad Request, Usage
limit exceeded and Internal Server Error appear exactly when the body
is a valid JSON object lacking the detail field. -/
theorem c10_error_body_handling (c : MeditrailOCRClient) (fs : String → Option Nat)
    (file_path : String) (text system_prompt : Option String) (sz : Nat)
    (hfs : fs file_path = some sz) (hsz : sz ≤ sizeLimit) :
    ((process_document c fs file_path text system_prompt (.response 400 none)).result
        = .error (.requestException "Invalid JSON response")) ∧
    ((process_document c fs file_path text system_prompt (.response 429 none)).result
        = .error (.requestException "Invalid JSON response")) ∧
    ((process_document c fs file_path text system_prompt (.response 500 none)).result
        = .error (.requestException "Invalid JSON response")) ∧
    (∀ body, (process_document c fs file_path text system_prompt
        (.response 413 body)).result
        = .error (.requestException "File too large (max 50MB)")) ∧
    (∀ fields, (Json.obj fields).lookup "detail" = none →
      ((process_document c fs file_path text system_prompt
          (.response 400 (some (.obj fields)))).result
        = .error (.requestException "Bad Request: Bad Request")) ∧
      ((process_document c fs file_path text system_prompt
          (.response 429 (some (.obj fields)))).result
        = .error (.requestException
            "Usage limit exceeded: Usage limit exceeded")) ∧
      ((process_document c fs file_path text system_prompt
          (.response 500 (some (.obj fields)))).result
        = .error (.requestException
            "Internal Server Error: Internal Server Error"))) := by
  have hnl := Nat.not_lt.mpr hsz
  refine ⟨?_, ?_, ?_, ?_, ?_⟩
  · simp only [process_document, hfs]
    rw [if_neg hnl]
    rfl
  · simp only [process_document, hfs]
    rw [if_neg hnl]
    rfl
  · simp only [process_document, hfs]
    rw [if_neg hnl]
    rfl
  · intro body
    simp only [process_document, hfs]
    rw [if_neg hnl]
    rfl
  · intro fields hd
    refine ⟨?_, ?_, ?_⟩
    · simp only [process_document, hfs]
      rw [if_neg hnl]
      show handleResponse 400 (some (Json.obj fields)) = _
      rw [handleResponse_400_some]
      rw [show pyGet (Json.obj fields) "detail" (.str "Bad Request")
            = some (((Json.obj fields).lookup "detail").getD (.str "Bad Request"))
          from rfl]
      rw [hd]
      rfl
    · simp only [process_document, hfs]
      rw [if_neg hnl]
      show handleResponse 429 (some (Json.obj fields)) = _
      rw [handleResponse_429_some]
      rw [show pyGet (Json.obj fields) "detail" (.obj [])
            = some (((Json.obj fields).lookup "detail").getD (.obj [])) from rfl]
      rw [hd]
      rfl
    · simp only [process_document, hfs]
      rw [if_neg hnl]
      show handleResponse 500 (some (Json.obj fields)) = _
      rw [handleResponse_500_some]
      rw [show pyGet (Json.obj fields) "detail" (.str "Internal Server Error")
            = some (((Json.obj fields).lookup "detail").getD
                (.str "Internal Server Error")) from rfl]
      rw [hd]
      rfl

/-- Witness for C10 on a 400 response with an undecodable body. -/
theorem c10_error_body_handling_witness :
    (process_document sampleClient sampleFs "docs/scan.pdf" none none
        (.response 400 none)).result
      = .error (.requestException "Invalid JSON response") :=
  (c10_error_body_handling sampleClient sampleFs "docs/scan.pdf" none none 1024
      rfl (by decide)).1
